import Mathlib

/-!
Shallow embedding of the property-project Go web server
(package internal: greeter.go, handler.go, router.go, config.go, locations.go;
package specifications: http_adapter_test.go) together with theorems
checking the natural-language specification against it.

Strings are modelled by Lean String (logically a list of characters; the
server only ever handles ASCII literals, where Go byte indices and character
indices agree). The Go standard-library collaborators (os.Getenv,
html/template, net/http, gorilla/mux dispatch) are modelled explicitly where
the code under verification depends on their behaviour.
-/

namespace PropertyProject

/-! ### locations.go -/

def LocationWorld : String := "world"

def LocationUK : String := "uk"

/-! ### greeter.go -/

/-- GreeterService is an empty struct: the greeter holds no state. -/
structure GreeterService where
deriving DecidableEq

def NewGreeter : GreeterService := {}

/-- The switch in GreeterService.Greet: case LocationUK, case LocationWorld,
default. -/
def GreeterService.Greet (_g : GreeterService) (location : String) : String :=
  if location = LocationUK then "Hello, UK!"
  else if location = LocationWorld then "Hello, World!"
  else "Hello, World!"

/-- Stateful view of a Greet call on a service value: the method has a
pointer receiver but writes nothing through it, so the post-state is the
receiver unchanged. Used to express determinism and absence of side
effects. -/
def GreeterService.GreetSt (g : GreeterService) (location : String) :
    String × GreeterService :=
  (g.Greet location, g)

/-! ### config.go -/

structure Config where
  Env : String
  Port : String
deriving DecidableEq

/-- os.Getenv: the OS environment is a partial map from names to values;
Getenv returns the empty string for an absent variable. -/
def Getenv (osEnv : String → Option String) (key : String) : String :=
  (osEnv key).getD ""

def LoadConfig (osEnv : String → Option String) : Config :=
  let env := Getenv osEnv "ENV"
  let env := if env = "" then "local" else env
  let port := Getenv osEnv "PORT"
  let port := if port = "" then "8080" else port
  { Env := env, Port := port }

/-! ### handler.go

An HTTP request as the handlers could observe it; every handler in this
package ignores its request argument entirely. -/

structure Request where
  method : String
  path : String
  headers : List (String × String)
  body : String

/-- A response as recorded by the response writer: the status written (200
when the handler only writes the body, as httptest.ResponseRecorder
defaults) and the body bytes. -/
structure Response where
  status : Nat
  body : String
deriving DecidableEq

/-- A parsed template (the result of a successful template.ParseFiles):
Execute renders a data context (the map passed as the dot) to output bytes,
and may additionally report an execution error. -/
def Template : Type := List (String × String) → String × Option String

/-- The outcome of template.ParseFiles for a given file: the disk state the
handler reads per request. An error value carries err.Error(). -/
def ParseResult : Type := Except String Template

/-- The handler set holds the injected Greeter interface, whose single
method is a function from location to message. -/
structure Handler where
  greeter : String → String

def NewHandler (greeter : String → String) : Handler :=
  { greeter := greeter }

/-- http.Error(w, msg, code): replies with the given status code and the
message as body. -/
def httpError (msg : String) (code : Nat) : Response :=
  { status := code, body := msg }

/-- IndexHandler: parse templates/index.html; on error respond 500 with the
error text; otherwise execute the template with a nil context, discarding
the execution error. -/
def Handler.IndexHandler (_h : Handler) (parsed : ParseResult)
    (_r : Request) : Response :=
  match parsed with
  | .error e => httpError e 500
  | .ok tmpl => { status := 200, body := (tmpl []).1 }

/-- HelloWorldHandler: greet with LocationWorld, parse
templates/partials/hello_world.html; on error respond 500 with the error
text; otherwise execute with a context holding the single Message field,
discarding the execution error. -/
def Handler.HelloWorldHandler (h : Handler) (parsed : ParseResult)
    (_r : Request) : Response :=
  let message := h.greeter LocationWorld
  match parsed with
  | .error e => httpError e 500
  | .ok tmpl => { status := 200, body := (tmpl [("Message", message)]).1 }

/-- HelloUKHandler: greet with LocationUK, parse
templates/partials/hello_uk.html; otherwise as HelloWorldHandler. -/
def Handler.HelloUKHandler (h : Handler) (parsed : ParseResult)
    (_r : Request) : Response :=
  let message := h.greeter LocationUK
  match parsed with
  | .error e => httpError e 500
  | .ok tmpl => { status := 200, body := (tmpl [("Message", message)]).1 }

/-! ### router.go -/

inductive RouteTarget
  | index
  | helloWorld
  | helloUK
  | health
  | stripAndServe (pre : String) (dir : String)
deriving DecidableEq

inductive Matcher
  | exactPath (p : String)
  | pathPref (p : String)
deriving DecidableEq

structure Route where
  matcher : Matcher
  methods : List String
  target : RouteTarget
deriving DecidableEq

/-- Character-level string prefix test (Go strings are byte strings; all
paths here are ASCII). -/
def strHasPref (pre s : String) : Bool :=
  pre.data.isPrefixOf s.data

/-- Drop the first n characters of a string (Go slice s[n:] on ASCII). -/
def strDrop (s : String) (n : Nat) : String :=
  ⟨s.data.drop n⟩

/-- The routing table registered by NewRouter, in registration order:
three exact GET routes, then the /static/ prefix route (no method
restriction) wrapped in http.StripPrefix over http.Dir("static"). -/
def NewRouter : List Route :=
  [ { matcher := .exactPath "/", methods := ["GET"], target := .index },
    { matcher := .exactPath "/hello-world", methods := ["GET"],
      target := .helloWorld },
    { matcher := .exactPath "/hello-uk", methods := ["GET"],
      target := .helloUK },
    { matcher := .pathPref "/static/", methods := [],
      target := .stripAndServe "/static/" "static" } ]

/-- gorilla/mux matching for one registered route: the method list, when
non-empty, must contain the request method; the path must equal an exact
pattern or extend a prefix pattern. -/
def Route.matchesReq (rt : Route) (method path : String) : Bool :=
  (rt.methods.isEmpty || rt.methods.contains method) &&
    (match rt.matcher with
     | .exactPath p => path = p
     | .pathPref p => strHasPref p path)

/-- What the router ultimately does with a request. -/
inductive Outcome
  | page (t : RouteTarget)
  | file (dir : String) (path : String)
  | notFound
deriving DecidableEq

/-- Dispatch on the routing table: the first matching route wins; the
static route serves the file named by the path with its registered prefix
stripped (http.StripPrefix) out of the registered directory; no match falls
through to the not-found handling of the router. -/
def dispatch (method path : String) : Outcome :=
  match NewRouter.find? (fun rt => rt.matchesReq method path) with
  | none => .notFound
  | some rt =>
    match rt.target with
    | .stripAndServe pre dir =>
        .file dir (if strHasPref pre path then strDrop path pre.length else path)
    | t => .page t

/-! ### http_adapter_test.go -/

/-- strings.Index: position of the first occurrence of a pattern in a
character list, none when absent. -/
def indexOfSub (pat : List Char) : List Char → Option Nat
  | [] => if pat.isEmpty then some 0 else none
  | c :: rest =>
    if pat.isPrefixOf (c :: rest) then some 0
    else (indexOfSub pat rest).map (· + 1)

/-- The body extraction of HTTPGreeterAdapter.Greet: the content between
the first <h2> and the first </h2> when both occur, the whole content
otherwise (content[start+4:end] in Go). -/
def extractH2 (content : String) : String :=
  match indexOfSub "<h2>".data content.data,
        indexOfSub "</h2>".data content.data with
  | some st, some en => ⟨(content.data.take en).drop (st + 4)⟩
  | _, _ => content

/-- httptest.NewRequest(http.MethodGet, path, nil). -/
def getReq (path : String) : Request :=
  { method := "GET", path := path, headers := [], body := "" }

/-- HTTPGreeterAdapter.Greet: pick the handler and path by the location
switch (world, uk, default world), run the handler on a recorded GET
request, and extract the message between <h2> tags from the body. The
parse results of the two partial template files are the disk state the
handlers read. -/
def HTTPGreeterAdapter.Greet (h : Handler)
    (worldParsed ukParsed : ParseResult) (location : String) : String :=
  let resp :=
    if location = LocationWorld then
      h.HelloWorldHandler worldParsed (getReq "/hello-world")
    else if location = LocationUK then
      h.HelloUKHandler ukParsed (getReq "/hello-uk")
    else
      h.HelloWorldHandler worldParsed (getReq "/hello-world")
  extractH2 resp.body

/-- Modelled from the spec: the partial template files
templates/partials/hello_world.html and hello_uk.html are not in the
repository. Per the spec each is a small partial rendering the single
Message field of its context, and the HTTP driver extracts the message
between <h2> tags of the rendered body, so the partial encloses the
Message field in <h2> tags. Execution never fails on this context. -/
def helloPartial : Template :=
  fun data => ("<h2>" ++ ((data.lookup "Message").getD "") ++ "</h2>", none)

/-- A sample environment for witnesses: ENV set to a non-empty value, PORT
absent. -/
def envSample : String → Option String :=
  fun key => if key = "ENV" then some "production" else none

/-! ### Theorems -/

/-- Claim C1: for every location string, Greet returns the UK greeting
exactly for input uk, the world greeting for world, and the world greeting
for every other input, never an error. -/
theorem greet_uk_world_default (g : GreeterService) :
    g.Greet "uk" = "Hello, UK!" ∧ g.Greet "world" = "Hello, World!" ∧
    ∀ s, s ≠ "uk" → g.Greet s = "Hello, World!" := by
  refine ⟨rfl, rfl, fun s hs => ?_⟩
  unfold GreeterService.Greet LocationUK LocationWorld
  rw [if_neg hs]
  split <;> rfl

/-- Witness for C1 at the concrete unrecognized input france. -/
theorem greet_uk_world_default_witness :
    ("france" : String) ≠ "uk" ∧
      NewGreeter.Greet "france" = "Hello, World!" :=
  ⟨by decide, (greet_uk_world_default NewGreeter).2.2 "france" (by decide)⟩

/-- Claim C4: Greet is total and its result is always one of the two
canned strings. -/
theorem greet_total_two_strings (g : GreeterService) (s : String) :
    g.Greet s = "Hello, World!" ∨ g.Greet s = "Hello, UK!" := by
  unfold GreeterService.Greet
  split
  · exact Or.inr rfl
  · split <;> exact Or.inl rfl

/-- Claim C8: Greet is deterministic and side-effect-free: the call leaves
the service unchanged, any two service values give the same answer for the
same input, and a repeated call after a first one returns the same
string. -/
theorem greet_deterministic_stateless (g g2 : GreeterService) (s : String) :
    (g.GreetSt s).2 = g ∧ (g.GreetSt s).1 = (g2.GreetSt s).1 ∧
    ((g.GreetSt s).2.GreetSt s).1 = (g.GreetSt s).1 :=
  ⟨rfl, rfl, rfl⟩

/-- Claim C5: LoadConfig takes ENV when set non-empty and defaults to
local when ENV is absent or empty, takes PORT when set non-empty and
defaults to 8080 when PORT is absent or empty, with no other
transformation. -/
theorem loadConfig_env_defaults (osEnv : String → Option String) :
    ((osEnv "ENV" = none ∨ osEnv "ENV" = some "") →
      (LoadConfig osEnv).Env = "local") ∧
    (∀ v, osEnv "ENV" = some v → v ≠ "" → (LoadConfig osEnv).Env = v) ∧
    ((osEnv "PORT" = none ∨ osEnv "PORT" = some "") →
      (LoadConfig osEnv).Port = "8080") ∧
    (∀ v, osEnv "PORT" = some v → v ≠ "" → (LoadConfig osEnv).Port = v) := by
  refine ⟨?_, ?_, ?_, ?_⟩
  · rintro (h | h) <;> simp [LoadConfig, Getenv, h]
  · intro v hv hne
    simp [LoadConfig, Getenv, hv, hne]
  · rintro (h | h) <;> simp [LoadConfig, Getenv, h]
  · intro v hv hne
    simp [LoadConfig, Getenv, hv, hne]

/-- Witness for C5 at a concrete environment with ENV set and PORT
absent. -/
theorem loadConfig_env_defaults_witness :
    (LoadConfig envSample).Env = "production" ∧
    (LoadConfig envSample).Port = "8080" :=
  ⟨(loadConfig_env_defaults envSample).2.1 "production" (by decide) (by decide),
   (loadConfig_env_defaults envSample).2.2.1 (Or.inl (by decide))⟩

/-- Claim C3: each greeting handler answers 500 with the raw error text
when the partial template fails to load or parse, and otherwise renders
the parsed partial on a context holding the single Message field set to
the greeter output for its location tag. -/
theorem greeting_handlers_render_or_500 (h : Handler) (p : ParseResult)
    (r : Request) :
    (∀ e, p = .error e →
      h.HelloWorldHandler p r = { status := 500, body := e } ∧
      h.HelloUKHandler p r = { status := 500, body := e }) ∧
    (∀ t, p = .ok t →
      h.HelloWorldHandler p r =
        { status := 200,
          body := (t [("Message", h.greeter LocationWorld)]).1 } ∧
      h.HelloUKHandler p r =
        { status := 200,
          body := (t [("Message", h.greeter LocationUK)]).1 }) := by
  constructor
  · rintro e rfl
    exact ⟨rfl, rfl⟩
  · rintro t rfl
    exact ⟨rfl, rfl⟩

/-- Witness for C3: a failed parse yields the 500 with the error text, a
successful parse of the modelled partial yields the rendered message. -/
theorem greeting_handlers_render_or_500_witness :
    (NewHandler NewGreeter.Greet).HelloWorldHandler
        (.error "open templates: no such file or directory")
        (getReq "/hello-world")
      = { status := 500,
          body := "open templates: no such file or directory" } ∧
    (NewHandler NewGreeter.Greet).HelloUKHandler (.ok helloPartial)
        (getReq "/hello-uk")
      = { status := 200, body := "<h2>Hello, UK!</h2>" } :=
  ⟨((greeting_handlers_render_or_500 (NewHandler NewGreeter.Greet)
      (.error "open templates: no such file or directory")
      (getReq "/hello-world")).1
      "open templates: no such file or directory" rfl).1,
   (((greeting_handlers_render_or_500 (NewHandler NewGreeter.Greet)
      (.ok helloPartial) (getReq "/hello-uk")).2
      helloPartial rfl).2).trans (by decide)⟩

/-- Claim C9: once the template file parses, every handler responds 200:
the execution error is discarded, so no template can drive any of the
three handlers into the 500 branch. -/
theorem execute_error_discarded (h : Handler) (t : Template) (r : Request) :
    (h.IndexHandler (.ok t) r).status = 200 ∧
    (h.HelloWorldHandler (.ok t) r).status = 200 ∧
    (h.HelloUKHandler (.ok t) r).status = 200 :=
  ⟨rfl, rfl, rfl⟩

/-- Claim C10: the index and greeting handlers ignore the incoming
request: with the same parse result of the template file, any two requests
receive identical responses. -/
theorem handlers_ignore_request (h : Handler) (p : ParseResult)
    (r1 r2 : Request) :
    h.IndexHandler p r1 = h.IndexHandler p r2 ∧
    h.HelloWorldHandler p r1 = h.HelloWorldHandler p r2 ∧
    h.HelloUKHandler p r1 = h.HelloUKHandler p r2 :=
  ⟨rfl, rfl, rfl⟩

/-- The registered static prefix is eight characters long. -/
theorem staticPrefLen : ("/static/" : String).length = 8 := by decide

/-- Claim C6: the routing table maps exactly GET / to index, GET
/hello-world to greet-world, GET /hello-uk to greet-uk, and every path
with the /static/ prefix, under any method, to the file server over the
static directory with the prefix stripped; everything else is
not-found. -/
theorem router_table_exact (m p : String) :
    dispatch m p =
      if m = "GET" ∧ p = "/" then .page .index
      else if m = "GET" ∧ p = "/hello-world" then .page .helloWorld
      else if m = "GET" ∧ p = "/hello-uk" then .page .helloUK
      else if strHasPref "/static/" p then .file "static" (strDrop p 8)
      else .notFound := by
  by_cases hm : m = "GET" <;> by_cases h1 : p = "/" <;>
    by_cases h2 : p = "/hello-world" <;> by_cases h3 : p = "/hello-uk" <;>
    by_cases h4 : strHasPref "/static/" p = true <;>
    simp_all +decide [dispatch, NewRouter, List.find?, Route.matchesReq,
      staticPrefLen]

/-- Counterexample to claim C2: no route of the served routing table
targets a health endpoint, and a GET to /healthz is matched by no route at
all. -/
theorem no_health_route_counterexample :
    (NewRouter.all fun rt => rt.target != RouteTarget.health) = true ∧
    dispatch "GET" "/healthz" = Outcome.notFound := by
  constructor
  · decide
  · decide

/-- Claim C2 as amended: the served routing table contains no health
route; a request to /healthz, under any method, falls through to the
not-found handling of the router. -/
theorem no_health_route (m : String) :
    (NewRouter.all fun rt => rt.target != RouteTarget.health) = true ∧
    dispatch m "/healthz" = Outcome.notFound := by
  constructor
  · decide
  · by_cases hm : m = "GET" <;>
      simp_all +decide [dispatch, NewRouter, List.find?, Route.matchesReq]

/-- Claim C7: for both location tags world and uk, the message the HTTP
driver obtains, by running the corresponding handler on a GET request over
the parsed partial template and extracting the content between the h2
tags, equals the message of a direct Greet call on the domain greeter. -/
theorem http_adapter_agrees_with_domain :
    HTTPGreeterAdapter.Greet (NewHandler NewGreeter.Greet)
        (.ok helloPartial) (.ok helloPartial) LocationWorld
      = NewGreeter.Greet LocationWorld ∧
    HTTPGreeterAdapter.Greet (NewHandler NewGreeter.Greet)
        (.ok helloPartial) (.ok helloPartial) LocationUK
      = NewGreeter.Greet LocationUK := by
  constructor <;> decide

end PropertyProject
